import Mathlib

set_option maxRecDepth 8000

/-!
Shallow embedding of the cakemail-smtp-service core (SMTP submission gateway),
covering the credential validator (src/smtp_gateway/api/auth.py), the
per-recipient submitter (src/smtp_gateway/api/email.py), the MIME parser
(src/smtp_gateway/email/parser.py), the SMTP command handler
(src/smtp_gateway/smtp/handler.py, src/smtp_gateway/smtp/auth.py) and the
server wiring (src/smtp_gateway/smtp/server.py, src/smtp_gateway/config.py).

Upstream HTTP services (httpx calls) are modelled as oracles: a function from
the index of the HTTP call to the observed outcome (status code plus the JSON
fields the code reads, or a timeout / transport error). Python dict fields that
may be absent are Option; Python string truthiness is explicit.
-/

namespace SmtpGateway

/-- Python truthiness of an optional string: `x` is truthy iff it is present
and non-empty. -/
def truthyS : Option String → Bool
  | none => false
  | some s => s ≠ ""

/-- Python `a or b` on two optional string fields. -/
def sOr (a b : Option String) : Option String :=
  if truthyS a then a else b

/-- Python `a or d` with a string default: yields `d` when `a` is falsy. -/
def pyOr (a : Option String) (d : String) : String :=
  if truthyS a then a.getD "" else d

/-! ## Error classes (src/smtp_gateway/api/errors.py)

`submit_email` raises ValidationError / RateLimitError / ServerError /
NetworkError; `validate_credentials` raises AuthenticationError / ServerError /
NetworkError. -/

/-- Errors raised by `submit_email` (api/errors.py classes it uses). -/
inductive SubmitError where
  | validation (msg : String)
  | rateLimit (msg : String)
  | server (msg : String)
  | network (msg : String)
deriving DecidableEq

/-- Errors raised by `validate_credentials` (api/errors.py classes it uses). -/
inductive AuthError where
  | authentication (msg : String)
  | server (msg : String)
  | network (msg : String)
deriving DecidableEq

/-! ## Per-recipient submitter (src/smtp_gateway/api/email.py) -/

/-- The JSON fields of an Email API response body that
`_submit_to_single_recipient` reads (`message_id`, `id`, `error`, `message`).
Absent fields are `none`. -/
structure RespBody where
  message_id : Option String
  id : Option String
  error : Option String
  message : Option String
deriving DecidableEq

/-- Outcome of one HTTP POST to the Email API, as observed by
`_submit_to_single_recipient`: a status code with the response body, a
timeout (httpx.TimeoutException), or another transport error
(httpx.RequestError). -/
inductive SubmitAttemptResult where
  | http (code : Nat) (body : RespBody)
  | timeout
  | transportError
deriving DecidableEq

/-- Result of `_submit_to_single_recipient` for one recipient: a recorded
success with its message id, a recorded failure with its error string, or a
raised RateLimitError (which aborts the whole fan-out). -/
inductive RecipientResult where
  | success (messageId : String)
  | failed (error : String)
  | rateLimit (msg : String)
deriving DecidableEq

/-- `max_attempts = 2` in `_submit_to_single_recipient`: one retry, taken only
after a timeout or transport error. -/
def max_attempts : Nat := 2

/-- The attempt loop of `_submit_to_single_recipient` (email.py lines 169-290).
`callIdx` is the global index of the next HTTP call; `attempt` is the loop
variable; the final argument is the remaining loop iterations. Returns the
per-recipient result together with the number of HTTP calls consumed.
Exception detail interpolated into timeout / network messages is elided. -/
def submitSingleGo (upstream : Nat → SubmitAttemptResult) :
    Nat → Nat → Nat → RecipientResult × Nat
  | _callIdx, _attempt, 0 => (.failed "Unknown error", 0)
  | callIdx, attempt, left + 1 =>
    match upstream callIdx with
    | .http code body =>
      if code = 200 ∨ code = 202 then
        let mid := sOr body.message_id body.id
        if truthyS mid then (.success (mid.getD ""), 1)
        else (.failed "Invalid API response: missing message_id", 1)
      else if code = 400 then
        (.failed (pyOr (sOr body.error body.message) "Validation error"), 1)
      else if code = 429 then
        (.rateLimit "Rate limit exceeded, try again later", 1)
      else if 500 ≤ code then
        (.failed ("API server error: " ++ toString code), 1)
      else
        (.failed ("Unexpected API response: " ++ toString code), 1)
    | .timeout =>
      if attempt < max_attempts - 1 then
        let r := submitSingleGo upstream (callIdx + 1) (attempt + 1) left
        (r.1, r.2 + 1)
      else (.failed "API request timeout", 1)
    | .transportError =>
      if attempt < max_attempts - 1 then
        let r := submitSingleGo upstream (callIdx + 1) (attempt + 1) left
        (r.1, r.2 + 1)
      else (.failed "Network error", 1)

/-- `_submit_to_single_recipient`: runs the attempt loop starting at attempt 0
with `max_attempts` iterations available. -/
def submitSingle (upstream : Nat → SubmitAttemptResult) (callIdx : Nat) :
    RecipientResult × Nat :=
  submitSingleGo upstream callIdx 0 max_attempts

/-- An attachment record as built by `_extract_attachments` (parser.py) and
forwarded verbatim in the submit request body. -/
structure Attachment where
  filename : String
  content_type : String
  content : String
  size : Nat
deriving DecidableEq

/-- The parsed-email dictionary returned by `parse_email_message`. `from` is a
Lean keyword, so the `"from"` key is `from_addr`. -/
structure EmailData where
  from_addr : String
  to_recipients : List String
  cc_recipients : List String
  bcc_recipients : List String
  subject : String
  body_text : String
  body_html : Option String
  attachments : List Attachment
  reply_to : String
  message_id : String
  date : String
  custom_headers : List (String × String)
deriving DecidableEq

/-- The aggregate `recipients` accounting built by `submit_email`:
`succeeded` and `message_ids` grow in lockstep; `failed` pairs each failed
recipient with its error string. -/
structure SubmissionOutcome where
  succeeded : List String
  failed : List (String × String)
  message_ids : List String
deriving DecidableEq

/-- Result of one `submit_email` run: the returned outcome or the raised
error, together with the total number of Email API HTTP calls made. -/
structure SubmitTrace where
  result : Except SubmitError SubmissionOutcome
  calls : Nat

/-- The all-recipients-failed summary string
(`"; ".join(f"{r.email}: {r.error}")`). -/
def joinFailures (failAcc : List (String × String)) : String :=
  String.intercalate "; " (failAcc.map (fun p => p.1 ++ ": " ++ p.2))

/-- The recipient loop of `submit_email` (email.py lines 78-117): sequential
fan-out accumulating `succeeded` / `failed` / `message_ids`; a RateLimitError
from any recipient propagates immediately; after the loop, an empty
`succeeded` raises ValidationError. -/
def submitLoop (upstream : Nat → SubmitAttemptResult) :
    List String → Nat → List String → List (String × String) → List String →
    SubmitTrace
  | [], _callIdx, succAcc, failAcc, idsAcc =>
    if succAcc = [] then
      { result := .error (.validation ("All recipients failed: " ++ joinFailures failAcc)),
        calls := 0 }
    else
      { result := .ok { succeeded := succAcc, failed := failAcc, message_ids := idsAcc },
        calls := 0 }
  | r :: rest, callIdx, succAcc, failAcc, idsAcc =>
    match submitSingle upstream callIdx with
    | (.success mid, used) =>
      let t := submitLoop upstream rest (callIdx + used) (succAcc ++ [r]) failAcc
        (idsAcc ++ [mid])
      { result := t.result, calls := t.calls + used }
    | (.failed err, used) =>
      let t := submitLoop upstream rest (callIdx + used) succAcc
        (failAcc ++ [(r, err)]) idsAcc
      { result := t.result, calls := t.calls + used }
    | (.rateLimit m, used) =>
      { result := .error (.rateLimit m), calls := used }

/-- `submit_email` (email.py lines 20-117): collect `to ++ cc ++ bcc`, fail as
ValidationError when empty, otherwise run the sequential fan-out. -/
def submit_email (upstream : Nat → SubmitAttemptResult) (email : EmailData) :
    SubmitTrace :=
  let all_recipients := email.to_recipients ++ email.cc_recipients ++ email.bcc_recipients
  if all_recipients = [] then
    { result := .error (.validation "No recipients specified"), calls := 0 }
  else
    submitLoop upstream all_recipients 0 [] [] []

/-- The per-recipient request body built in `_submit_to_single_recipient`
(email.py lines 146-163): `html` is included only when `body_html` is truthy,
`attachments` only when the list is non-empty. -/
structure ApiPayload where
  from_email : String
  to_email : String
  subject : String
  text : String
  html : Option String
  attachments : Option (List Attachment)
deriving DecidableEq

/-- Build the Email API payload for one recipient (email.py lines 146-163). -/
def build_api_payload (email : EmailData) (recipient : String) : ApiPayload :=
  { from_email := email.from_addr
    to_email := recipient
    subject := email.subject
    text := email.body_text
    html := if truthyS email.body_html then email.body_html else none
    attachments := if email.attachments = [] then none else some email.attachments }

/-! ## Credential validator (src/smtp_gateway/api/auth.py) -/

/-- The JSON field of an Auth API response body that `validate_credentials`
reads: `api_key` (absent is `none`). -/
structure AuthRespBody where
  api_key : Option String
deriving DecidableEq

/-- Outcome of one HTTP POST to the Auth API as observed by
`validate_credentials`. -/
inductive AuthAttemptResult where
  | http (code : Nat) (body : AuthRespBody)
  | timeout
  | transportError
deriving DecidableEq

/-- Final outcome of `validate_credentials`: the API key, a raised error, or
`crash` modelling an uncaught IndexError when `retry_delays[attempt]` is read
out of bounds (possible only if `api_max_retries` exceeds 2). -/
inductive AuthOutcome where
  | key (k : String)
  | err (e : AuthError)
  | crash
deriving DecidableEq

/-- `retry_delays = [0.5, 1.0]` (auth.py line 49), in milliseconds. -/
def retry_delays : List Nat := [500, 1000]

/-- Trace of one `validate_credentials` run: its outcome, the number of HTTP
attempts made, and the backoff sleeps performed (ms, in order). -/
structure AuthTrace where
  outcome : AuthOutcome
  attempts : Nat
  sleeps : List Nat
deriving DecidableEq

/-- The attempt loop of `validate_credentials` (auth.py lines 53-165):
`attempt` is the loop variable, the `Nat` after it the remaining loop
iterations, and the final argument `last_error`. 200 with a truthy `api_key`
returns it; 200 without one raises ServerError; 401/403 raise
AuthenticationError with no retry; ≥500 retries with backoff while
`attempt < max_retries`, else raises ServerError; any other status raises
ServerError with no retry; timeouts and transport errors retry on the same
schedule and finally raise NetworkError. Exception detail in timeout /
network messages is elided. -/
def validateGo (upstream : Nat → AuthAttemptResult) (max_retries : Nat) :
    Nat → Nat → Option AuthError → AuthTrace
  | _attempt, 0, lastError =>
    { outcome := .err (lastError.getD (.network "Authentication request failed after all retries"))
      attempts := 0, sleeps := [] }
  | attempt, fuel + 1, _lastError =>
    match upstream attempt with
    | .http code body =>
      if code = 200 then
        if truthyS body.api_key then
          { outcome := .key (body.api_key.getD ""), attempts := 1, sleeps := [] }
        else
          { outcome := .err (.server "Invalid API response: missing api_key")
            attempts := 1, sleeps := [] }
      else if code = 401 ∨ code = 403 then
        { outcome := .err (.authentication "Invalid credentials"), attempts := 1, sleeps := [] }
      else if 500 ≤ code then
        if attempt < max_retries then
          match retry_delays.get? attempt with
          | some d =>
            let t := validateGo upstream max_retries (attempt + 1) fuel
              (some (.server ("API server error: " ++ toString code)))
            { outcome := t.outcome, attempts := t.attempts + 1, sleeps := d :: t.sleeps }
          | none => { outcome := .crash, attempts := 1, sleeps := [] }
        else
          { outcome := .err (.server ("API server error: " ++ toString code))
            attempts := 1, sleeps := [] }
      else
        { outcome := .err (.server ("Unexpected API response: " ++ toString code))
          attempts := 1, sleeps := [] }
    | .timeout =>
      if attempt < max_retries then
        match retry_delays.get? attempt with
        | some d =>
          let t := validateGo upstream max_retries (attempt + 1) fuel
            (some (.network "API request timeout"))
          { outcome := t.outcome, attempts := t.attempts + 1, sleeps := d :: t.sleeps }
        | none => { outcome := .crash, attempts := 1, sleeps := [] }
      else
        { outcome := .err (.network "API request timeout"), attempts := 1, sleeps := [] }
    | .transportError =>
      if attempt < max_retries then
        match retry_delays.get? attempt with
        | some d =>
          let t := validateGo upstream max_retries (attempt + 1) fuel
            (some (.network "Network error"))
          { outcome := t.outcome, attempts := t.attempts + 1, sleeps := d :: t.sleeps }
        | none => { outcome := .crash, attempts := 1, sleeps := [] }
      else
        { outcome := .err (.network "Network error"), attempts := 1, sleeps := [] }

/-- `validate_credentials` (auth.py lines 20-165): the loop runs for
`max_retries + 1` iterations starting at attempt 0 (`settings.api_max_retries`
defaults to 2, hence 3 attempts by default). -/
def validate_credentials (upstream : Nat → AuthAttemptResult) (max_retries : Nat) :
    AuthTrace :=
  validateGo upstream max_retries 0 (max_retries + 1) none

/-! ## MIME parser (src/smtp_gateway/email/parser.py)

Python's `email` library output is modelled structurally: a header value is
its raw string together with its RFC 2047 decode (`none` when decoding
raises, in which case `_decode_header` falls back to the raw value); an
address header additionally carries the `getaddresses` output; payload bytes
are `List Nat`; charset decoding with `errors="replace"` never fails, and the
resulting decoded text of a part is the `text` field. `message_from_bytes`
raising is modelled by the parser input being `none`. -/

/-- A header value: the raw string and its RFC 2047 decode (`none` when
`decode_header`/`make_header` raises). -/
structure HeaderText where
  raw : String
  decoded : Option String
deriving DecidableEq

/-- `_decode_header` (parser.py lines 16-34): `""` for an absent or falsy
value, the RFC 2047 decode otherwise, falling back to the raw value when
decoding raises. -/
def decode_header (v : Option HeaderText) : String :=
  match v with
  | none => ""
  | some h => if h.raw = "" then "" else h.decoded.getD h.raw

/-- A To / Cc / Bcc header value: the raw string and the `getaddresses`
output, a list of (display name, address) pairs. -/
structure AddrHeader where
  raw : String
  addresses : List (String × String)
deriving DecidableEq

/-- `_extract_recipients` (parser.py lines 37-58): empty for an absent or
falsy header, otherwise the addresses from `getaddresses`, dropping display
names and filtering out empty addresses. -/
def extract_recipients (h : Option AddrHeader) : List String :=
  match h with
  | none => []
  | some a =>
    if a.raw = "" then []
    else (a.addresses.filter (fun p => p.2 ≠ "")).map (fun p => p.2)

/-- One MIME part as the parser observes it: `is_multipart`, content type,
`Content-Disposition` (`""` when absent), filename parameter, decoded payload
bytes (`none` models Python `None`), and the charset-decoded payload text. -/
structure MimePart where
  is_multipart : Bool
  content_type : String
  content_disposition : String
  filename : Option HeaderText
  payload : Option (List Nat)
  text : String
deriving DecidableEq

/-- A parsed MIME message: the headers the parser reads, all headers in order
(for X-* extraction), the root part, and the proper subparts so that
`msg.walk()` is `root :: subparts` in pre-order. -/
structure MimeMessage where
  from_h : Option HeaderText
  to_h : Option AddrHeader
  cc_h : Option AddrHeader
  bcc_h : Option AddrHeader
  subject_h : Option HeaderText
  reply_to_h : Option HeaderText
  message_id_h : Option String
  date_h : Option String
  headers : List (String × HeaderText)
  root : MimePart
  subparts : List MimePart
deriving DecidableEq

/-- Character-list version of `String.startsWith`. -/
def listLeads : List Char → List Char → Bool
  | [], _ => true
  | _ :: _, [] => false
  | a :: as, b :: bs => a = b && listLeads as bs

/-- Substring test (Python `needle in hay`). -/
def listHasSub (n : List Char) : List Char → Bool
  | [] => listLeads n []
  | b :: bs => listLeads n (b :: bs) || listHasSub n bs

/-- Python `needle in hay` on strings. -/
def strHasSub (needle hay : String) : Bool :=
  listHasSub needle.toList hay.toList

/-- ASCII lower-casing of one character (Python `str.lower` restricted to
ASCII, which covers the `Content-Disposition` tokens compared against). -/
def lowerChar (c : Char) : Char :=
  if 65 ≤ c.toNat ∧ c.toNat ≤ 90 then Char.ofNat (c.toNat + 32) else c

/-- Python `needle in hay.lower()` on strings. -/
def strHasSubLower (needle hay : String) : Bool :=
  listHasSub needle.toList (hay.toList.map lowerChar)

/-- The first text body of the given content type found while walking the
parts in order (the multipart branch of `_extract_plain_text_body` /
`_extract_html_body`): a non-multipart part of that type with a truthy
payload yields its decoded text; otherwise the walk continues. -/
def firstBody (ct : String) : List MimePart → Option String
  | [] => none
  | p :: rest =>
    if p.content_type = ct ∧ p.is_multipart = false then
      match p.payload with
      | some bytes => if bytes ≠ [] then some p.text else firstBody ct rest
      | none => firstBody ct rest
    else firstBody ct rest

/-- `_extract_plain_text_body` (parser.py lines 155-202). -/
def extract_plain_text_body (msg : MimeMessage) : Option String :=
  if msg.root.is_multipart = false then
    if msg.root.content_type = "text/plain" then
      match msg.root.payload with
      | some bytes => if bytes ≠ [] then some msg.root.text else none
      | none => none
    else none
  else firstBody "text/plain" (msg.root :: msg.subparts)

/-- `_extract_html_body` (parser.py lines 205-240). -/
def extract_html_body (msg : MimeMessage) : Option String :=
  if msg.root.is_multipart = false then
    if msg.root.content_type = "text/html" then
      match msg.root.payload with
      | some bytes => if bytes ≠ [] then some msg.root.text else none
      | none => none
    else none
  else firstBody "text/html" (msg.root :: msg.subparts)

/-- The standard base64 alphabet. -/
def base64Alphabet : String :=
  "ABCDEFGHIJKLMNOPQRSTUVWXYZabcdefghijklmnopqrstuvwxyz0123456789+/"

/-- Character of the base64 alphabet at the given 6-bit index. -/
def b64char (n : Nat) : Char := base64Alphabet.toList.getD n 'A'

/-- `base64.b64encode` over byte lists (standard alphabet with `=` padding). -/
def b64encode : List Nat → String
  | [] => ""
  | [b0] =>
    let n := b0 % 256
    String.mk [b64char (n / 4), b64char (n % 4 * 16)] ++ "=="
  | [b0, b1] =>
    let x := (b0 % 256) * 256 + b1 % 256
    String.mk [b64char (x / 1024), b64char (x / 16 % 64), b64char (x % 16 * 4)] ++ "="
  | b0 :: b1 :: b2 :: rest =>
    let x := ((b0 % 256) * 256 + b1 % 256) * 256 + b2 % 256
    String.mk [b64char (x / 262144), b64char (x / 4096 % 64),
      b64char (x / 64 % 64), b64char (x % 64)] ++ b64encode rest

/-- The attachment test of `_extract_attachments` (parser.py lines 273-280):
`Content-Disposition` contains `attachment` or `inline` (case-insensitive),
or the content type is neither text/plain nor text/html and a filename
parameter exists. -/
def is_attachment (p : MimePart) : Bool :=
  strHasSubLower "attachment" p.content_disposition
  || strHasSubLower "inline" p.content_disposition
  || (!(p.content_type = "text/plain" || p.content_type = "text/html")
      && p.filename.isSome)

/-- `_extract_attachments` (parser.py lines 243-308) over the walk order:
multipart containers are skipped; for an attachment part, a record is built
only when the filename is truthy and the decoded payload is truthy
(`if filename:` and `if payload:`), with the RFC 2047-decoded filename, the
part content type, the base64 of the payload, and the payload byte length. -/
def extract_attachments : List MimePart → List Attachment
  | [] => []
  | p :: rest =>
    if p.is_multipart then extract_attachments rest
    else if is_attachment p then
      match p.filename with
      | some fn =>
        if fn.raw ≠ "" then
          match p.payload with
          | some bytes =>
            if bytes ≠ [] then
              { filename := decode_header (some fn), content_type := p.content_type
                content := b64encode bytes, size := bytes.length }
                :: extract_attachments rest
            else extract_attachments rest
          | none => extract_attachments rest
        else extract_attachments rest
      | none => extract_attachments rest
    else extract_attachments rest

/-- Insert-or-replace preserving first-insertion order (Python dict
assignment). -/
def upsert (k : String) (v : String) : List (String × String) → List (String × String)
  | [] => [(k, v)]
  | (k0, v0) :: rest => if k0 = k then (k0, v) :: rest else (k0, v0) :: upsert k v rest

/-- The X-* header extraction of `parse_email_message` (parser.py lines
119-122): every header whose name starts with `X-` is decoded and stored;
duplicates keep the last occurrence. -/
def custom_headers_of (hs : List (String × HeaderText)) : List (String × String) :=
  hs.foldl
    (fun acc kv =>
      if listLeads "X-".toList kv.1.toList then
        upsert kv.1 (decode_header (some kv.2)) acc
      else acc)
    []

/-- `parse_email_message` (parser.py lines 61-152). The input is `none` when
`message_from_bytes` (byte-level decoding) raises; every failure is re-raised
as a single ValueError whose text starts with `Invalid email format: `. -/
def parse_email_message (raw : Option MimeMessage) : Except String EmailData :=
  match raw with
  | none => .error "Invalid email format: message decoding failed"
  | some msg =>
    let from_addr := decode_header msg.from_h
    if from_addr = "" then
      .error "Invalid email format: Missing required header: From"
    else
      let to_recipients := extract_recipients msg.to_h
      let cc_recipients := extract_recipients msg.cc_h
      let bcc_recipients := extract_recipients msg.bcc_h
      if to_recipients = [] ∧ cc_recipients = [] ∧ bcc_recipients = [] then
        .error "Invalid email format: At least one recipient required (To, Cc, or Bcc)"
      else
        .ok
          { from_addr := from_addr
            to_recipients := to_recipients
            cc_recipients := cc_recipients
            bcc_recipients := bcc_recipients
            subject := decode_header msg.subject_h
            body_text := (extract_plain_text_body msg).getD ""
            body_html := extract_html_body msg
            attachments := extract_attachments (msg.root :: msg.subparts)
            reply_to := decode_header msg.reply_to_h
            message_id := msg.message_id_h.getD ""
            date := msg.date_h.getD ""
            custom_headers := custom_headers_of msg.headers }

/-! ## SMTP handler (src/smtp_gateway/smtp/handler.py, smtp/auth.py)

`SMTPHandler` keeps per-peer session data in the process-wide dict
`self._authenticated_sessions`, keyed by `session.peer[0]` (the client IP),
modelled as an association list preserving insertion order. -/

/-- One value of `_authenticated_sessions`: the dict stored on AUTH success
(handler.py lines 207-211). `api_key` is `Option` to mirror
`session_data.get("api_key")` in `handle_DATA`. -/
structure SessionData where
  username : String
  api_key : Option String
  authenticated : Bool
deriving DecidableEq

/-- `dict.get`: first binding of the key, if any. -/
def lookupA : List (String × SessionData) → String → Option SessionData
  | [], _ => none
  | (k0, v) :: rest, k => if k0 = k then some v else lookupA rest k

/-- `dict[k] = v`: replace in place or append. -/
def storeA : List (String × SessionData) → String → SessionData → List (String × SessionData)
  | [], k, v => [(k, v)]
  | (k0, v0) :: rest, k, v =>
    if k0 = k then (k0, v) :: rest else (k0, v0) :: storeA rest k v

/-- `dict.pop(k, None)`: drop the binding of the key, if any. -/
def popA : List (String × SessionData) → String → List (String × SessionData)
  | [], _ => []
  | (k0, v0) :: rest, k => if k0 = k then rest else (k0, v0) :: popA rest k

/-- ASCII upper-casing of one character (Python `str.upper` restricted to
ASCII, which covers the mechanism names compared against). -/
def upperChar (c : Char) : Char :=
  if 97 ≤ c.toNat ∧ c.toNat ≤ 122 then Char.ofNat (c.toNat - 32) else c

/-- `args[0].upper()`. -/
def strUpper (s : String) : String :=
  String.mk (s.toList.map upperChar)

/-- Python `s.split(sep)` for a one-character separator, as used by
`parse_auth_plain` with NUL. -/
def splitSepAux (sep : Char) : List Char → List Char → List String
  | [], acc => [String.mk acc.reverse]
  | c :: cs, acc =>
    if c = sep then String.mk acc.reverse :: splitSepAux sep cs []
    else splitSepAux sep cs (c :: acc)

/-- Python `s.split(sep)` on strings. -/
def pySplit (sep : Char) (s : String) : List String :=
  splitSepAux sep s.toList []

/-- `parse_auth_plain` (smtp/auth.py lines 12-48). The input is the UTF-8
decode of the base64 payload, `none` when base64 or UTF-8 decoding raises.
The decoded string must split on NUL into exactly three parts with non-empty
username and password. -/
def parse_auth_plain (decoded : Option String) : Except Unit (String × String) :=
  match decoded with
  | none => .error ()
  | some d =>
    match pySplit (Char.ofNat 0) d with
    | [_, username, password] =>
      if username = "" ∨ password = "" then .error () else .ok (username, password)
    | _ => .error ()

/-- The outcome of the `validate_credentials` call as seen by `handle_AUTH`:
the returned key or the raised exception class. -/
inductive ValidatorResult where
  | key (k : String)
  | authenticationError
  | serverError
  | networkError
deriving DecidableEq

/-- State-and-reply result of `handle_AUTH`. -/
structure AuthReply where
  state : List (String × SessionData)
  reply : String
deriving DecidableEq

/-- `handle_AUTH` (handler.py lines 140-266). `tlsActive` models
`session.ssl is not None`; `peer` is `session.peer[0]`; `decodedPayload` is
the decoded AUTH PLAIN initial response handed to `parse_auth_plain`;
`validator` is the `validate_credentials` oracle. On success the session dict
gains the API key under the peer IP; on AuthenticationError the entry is
popped; on ServerError / NetworkError — and on a parse failure — the dict is
left unchanged. -/
def handle_AUTH (st : List (String × SessionData)) (peer : String)
    (tlsActive : Bool) (args : List String) (decodedPayload : Option String)
    (validator : String → String → ValidatorResult) : AuthReply :=
  if tlsActive = false then
    { state := st, reply := "530 5.7.0 Must issue STARTTLS command first" }
  else
    match args with
    | [] => { state := st, reply := "501 Syntax error: AUTH mechanism required" }
    | mechanism :: rest =>
      if strUpper mechanism = "PLAIN" then
        match rest with
        | [] => { state := st, reply := "334 " }
        | _ :: _ =>
          match parse_auth_plain decodedPayload with
          | .ok (username, password) =>
            match validator username password with
            | .key api_key =>
              { state := storeA st peer
                  { username := username, api_key := some api_key, authenticated := true }
                reply := "235 2.7.0 Authentication successful" }
            | .authenticationError =>
              { state := popA st peer, reply := "535 5.7.8 Authentication failed" }
            | .serverError =>
              { state := st
                reply := "451 4.7.0 Temporary authentication failure, please try again" }
            | .networkError =>
              { state := st
                reply := "451 4.7.0 Temporary authentication failure, please try again" }
          | .error _ =>
            { state := st, reply := "535 5.7.8 Authentication credentials invalid" }
      else if strUpper mechanism = "LOGIN" then
        { state := st, reply := "504 5.5.4 AUTH mechanism LOGIN not implemented yet" }
      else
        { state := st, reply := "504 5.5.4 AUTH mechanism not supported" }

/-- The API key a session observes: the stored key for its peer IP, `""` when
absent (`session_data.get("api_key")` falsiness). -/
def observed_api_key (st : List (String × SessionData)) (peerIp : String) : String :=
  match lookupA st peerIp with
  | some sd => sd.api_key.getD ""
  | none => ""

/-- The authenticated flag a session observes for its peer IP. -/
def observed_authenticated (st : List (String × SessionData)) (peerIp : String) : Bool :=
  match lookupA st peerIp with
  | some sd => sd.authenticated
  | none => false

/-- A reference to one SMTP session: connection id and peer IP. Distinct
concurrent connections have distinct `connId` but may share `peerIp`, while
`_authenticated_sessions` is keyed by `peerIp` alone. -/
structure SmtpSessionRef where
  connId : Nat
  peerIp : String
deriving DecidableEq

/-- The per-message envelope fields `handle_DATA` reads: `mail_from` (with
`""` for unset/falsy) and `rcpt_tos`. -/
structure Envelope where
  mail_from : String
  rcpt_tos : List String
deriving DecidableEq

/-- Rendering of `result.get("message_id")` in the 250 reply f-string:
`submit_email` stores the single id when exactly one message succeeded,
otherwise the Python `str()` of the id list. -/
def renderMessageIdField (ids : List String) : String :=
  match ids with
  | [m] => m
  | l => "[" ++ String.intercalate ", " (l.map (fun s => "\x27" ++ s ++ "\x27")) ++ "]"

/-- The try/except block of `handle_DATA` around the `submit_email` call
(handler.py lines 443-492): map the submit return value or the raised error
class to the SMTP reply. The ServerError and NetworkError arms are present in
the handler even though the current submitter only ever raises
ValidationError and RateLimitError. -/
def data_reply_of_submit (r : Except SubmitError SubmissionOutcome) : String :=
  match r with
  | .ok outcome =>
    "250 2.0.0 Message accepted for delivery: "
      ++ renderMessageIdField outcome.message_ids
  | .error (.validation m) => "550 5.6.0 Message rejected: " ++ m
  | .error (.rateLimit _) => "451 4.7.1 Rate limit exceeded, try again later"
  | .error (.server _) => "451 4.3.0 Temporary failure, try again later"
  | .error (.network _) => "451 4.4.0 Service temporarily unavailable"

/-- `handle_DATA` (handler.py lines 375-500): authentication gate, envelope
validation, parse, missing-API-key guard, submit, and the exception-to-reply
mapping. `session_data` is the dict entry for the session peer;
`parseResult` the `parse_email_message` outcome for `envelope.content`;
`upstream` the Email API oracle for `submit_email`. -/
def handle_DATA (session_data : Option SessionData) (envelope : Envelope)
    (parseResult : Except String EmailData)
    (upstream : Nat → SubmitAttemptResult) : String :=
  match session_data with
  | none => "530 5.7.0 Authentication required"
  | some sd =>
    if sd.authenticated = false then "530 5.7.0 Authentication required"
    else if envelope.mail_from = "" then "503 5.5.1 Error: MAIL FROM required"
    else if envelope.rcpt_tos = [] then "503 5.5.1 Error: RCPT TO required"
    else
      match parseResult with
      | .error e => "550 5.6.0 Message rejected: " ++ e
      | .ok email_data =>
        if sd.api_key.getD "" = "" then "451 4.3.0 Internal error: missing API key"
        else data_reply_of_submit (submit_email upstream email_data).result

/-! ## Server wiring and configuration (src/smtp_gateway/smtp/server.py,
src/smtp_gateway/config.py) -/

/-- The `Settings` fields relevant to the claims, with their config.py
defaults. -/
structure Settings where
  message_size_limit : Nat
  max_recipients : Nat
  api_max_retries : Nat
deriving DecidableEq

/-- config.py defaults: `message_size_limit = 26214400` (25 MB),
`max_recipients = 100`, `api_max_retries = 2`. -/
def defaultSettings : Settings :=
  { message_size_limit := 26214400, max_recipients := 100, api_max_retries := 2 }

/-- aiosmtpd's `DATA_SIZE_DEFAULT = 2 ** 25` bytes, the `data_size_limit`
an aiosmtpd `SMTP` server applies when the argument is not given. -/
def AIOSMTPD_DATA_SIZE_DEFAULT : Nat := 33554432

/-- The `data_size_limit` in force for the server built by
`create_smtp_server` (server.py lines 89-105): the `Controller(...)` call
passes `require_starttls`, `tls_context`, `auth_require_tls`, `auth_callback`,
`decode_data` and `enable_SMTPUTF8` but no `data_size_limit`, and
`settings.message_size_limit` is referenced nowhere, so aiosmtpd's default
applies whatever the settings say. -/
def create_smtp_server_data_size_limit (_s : Settings) : Nat :=
  AIOSMTPD_DATA_SIZE_DEFAULT

/-- aiosmtpd's DATA size gate for the server built by `create_smtp_server`:
a message body is accepted iff its byte count does not exceed the server's
`data_size_limit`; oversize draws `552 Error: Too much mail data`. -/
def smtp_data_accepts (s : Settings) (size : Nat) : Bool :=
  size ≤ create_smtp_server_data_size_limit s

/-! ## Concrete fixtures used by witnesses and counterexamples -/

/-- An Email API oracle that accepts every call with message id `m<n>`. -/
def uOkW : Nat → SubmitAttemptResult :=
  fun n =>
    .http 200
      { message_id := some ("m" ++ toString n), id := none, error := none, message := none }

/-- An Email API oracle that rate-limits every call. -/
def u429W : Nat → SubmitAttemptResult :=
  fun _ => .http 429 { message_id := none, id := none, error := none, message := none }

/-- An Email API oracle that rejects every call with a 400 and error text. -/
def u400W : Nat → SubmitAttemptResult :=
  fun _ => .http 400 { message_id := none, id := none, error := some "bad", message := none }

/-- A parsed email with recipients a, b (To) and c (Cc). -/
def email3W : EmailData :=
  { from_addr := "s@x.com", to_recipients := ["a", "b"], cc_recipients := ["c"]
    bcc_recipients := [], subject := "T", body_text := "t", body_html := none
    attachments := [], reply_to := "", message_id := "", date := ""
    custom_headers := [] }

/-- A parsed email with no recipients at all. -/
def emailNoneW : EmailData :=
  { email3W with to_recipients := [], cc_recipients := [], bcc_recipients := [] }

/-- A parsed email with a single To recipient. -/
def email1W : EmailData :=
  { email3W with to_recipients := ["a"], cc_recipients := [], bcc_recipients := [] }

/-- An authenticated session entry holding API key `k`. -/
def sdW : SessionData := { username := "u", api_key := some "k", authenticated := true }

/-- An envelope with a sender and one recipient. -/
def envW : Envelope := { mail_from := "s@x.com", rcpt_tos := ["r@x.com"] }

/-- A validator oracle that accepts any credentials with key `k`. -/
def vKeyW : String → String → ValidatorResult := fun _ _ => .key "k"

/-- A decoded AUTH PLAIN payload with empty authzid, username `u`,
password `pw`. -/
def plainPayloadW : Option String := some "\x00u\x00pw"

/-- An Auth API oracle that always returns 200 with key `K`. -/
def aOkW : Nat → AuthAttemptResult := fun _ => .http 200 { api_key := some "K" }

/-- An Auth API oracle that always returns 503. -/
def a503W : Nat → AuthAttemptResult := fun _ => .http 503 { api_key := none }

/-- An Auth API oracle that always times out. -/
def aTimeoutW : Nat → AuthAttemptResult := fun _ => .timeout

/-- An attachment part whose decoded payload is empty (`b""`). -/
def emptyPayloadPartW : MimePart :=
  { is_multipart := false, content_type := "application/pdf"
    content_disposition := "attachment", filename := some { raw := "a.pdf", decoded := some "a.pdf" }
    payload := some [], text := "" }

/-- An attachment part with payload bytes [1, 2, 3]. -/
def pdfPartW : MimePart :=
  { is_multipart := false, content_type := "application/pdf"
    content_disposition := "attachment", filename := some { raw := "a.pdf", decoded := some "a.pdf" }
    payload := some [1, 2, 3], text := "" }

/-- An attachment record for the fixture email. -/
def attW : Attachment :=
  { filename := "a.pdf", content_type := "application/pdf", content := "AQID", size := 3 }

/-- A parsed email carrying one attachment. -/
def emailAttW : EmailData := { email3W with attachments := [attW] }

/-- An inline part with no filename parameter. -/
def noFnPartW : MimePart :=
  { is_multipart := false, content_type := "image/png", content_disposition := "inline"
    filename := none, payload := some [1], text := "" }

/-- The root part of the plain-text message fixture. -/
def rootPartW : MimePart :=
  { is_multipart := false, content_type := "text/plain", content_disposition := ""
    filename := none, payload := some [104, 105], text := "hi" }

/-- A well-formed single-part plain-text message fixture. -/
def msgW : MimeMessage :=
  { from_h := some { raw := "s@x.com", decoded := some "s@x.com" }
    to_h := some { raw := "r@x.com", addresses := [("", "r@x.com")] }
    cc_h := none, bcc_h := none
    subject_h := some { raw := "T", decoded := some "T" }
    reply_to_h := none, message_id_h := none, date_h := none
    headers := [("From", { raw := "s@x.com", decoded := some "s@x.com" })]
    root := rootPartW
    subparts := [] }

/-- The expected parse of the plain-text message fixture. -/
def parsedW : EmailData :=
  { from_addr := "s@x.com", to_recipients := ["r@x.com"], cc_recipients := []
    bcc_recipients := [], subject := "T", body_text := "hi", body_html := none
    attachments := [], reply_to := "", message_id := "", date := ""
    custom_headers := [] }

/-! ## Lemmas on the submitter fan-out -/

/-- Shape of a successful `submitLoop` run: the final lists extend the
accumulators, successes and ids grow in lockstep (as a list of pairs), each
recipient lands in exactly one of the two lists, and successes keep the
recipient order. -/
theorem submitLoop_ok_shape (upstream : Nat → SubmitAttemptResult) :
    ∀ (recips : List String) (callIdx : Nat) (succAcc : List String)
      (failAcc : List (String × String)) (idsAcc : List String)
      (o : SubmissionOutcome),
      (submitLoop upstream recips callIdx succAcc failAcc idsAcc).result = .ok o →
      ∃ (pairs : List (String × String)) (newFails : List (String × String)),
        o.succeeded = succAcc ++ pairs.map Prod.fst ∧
        o.message_ids = idsAcc ++ pairs.map Prod.snd ∧
        o.failed = failAcc ++ newFails ∧
        pairs.length + newFails.length = recips.length ∧
        (pairs.map Prod.fst ++ newFails.map (fun q => q.1)).Perm recips ∧
        List.Sublist (pairs.map Prod.fst) recips := by
  intro recips
  induction recips with
  | nil =>
    intro callIdx succAcc failAcc idsAcc o h
    by_cases hs : succAcc = []
    · simp [submitLoop, hs] at h
    · simp only [submitLoop, if_neg hs] at h
      injection h with h
      refine ⟨[], [], ?_, ?_, ?_, ?_, ?_, ?_⟩ <;> simp [← h]
  | cons r rest ih =>
    intro callIdx succAcc failAcc idsAcc o h
    rcases hcall : submitSingle upstream callIdx with ⟨res, used⟩
    cases res with
    | success mid =>
      rw [submitLoop, hcall] at h
      simp only at h
      obtain ⟨pairs, newFails, h1, h2, h3, h4, h5, h6⟩ :=
        ih (callIdx + used) (succAcc ++ [r]) failAcc (idsAcc ++ [mid]) o h
      refine ⟨(r, mid) :: pairs, newFails, ?_, ?_, h3, ?_, ?_, ?_⟩
      · simpa [List.append_assoc] using h1
      · simpa [List.append_assoc] using h2
      · simpa using by omega
      · simpa using h5.cons r
      · exact List.Sublist.cons₂ r h6
    | failed err =>
      rw [submitLoop, hcall] at h
      simp only at h
      obtain ⟨pairs, newFails, h1, h2, h3, h4, h5, h6⟩ :=
        ih (callIdx + used) succAcc (failAcc ++ [(r, err)]) idsAcc o h
      refine ⟨pairs, (r, err) :: newFails, h1, h2, ?_, ?_, ?_, ?_⟩
      · simpa [List.append_assoc] using h3
      · simpa using by omega
      · exact List.Perm.trans List.perm_middle (h5.cons r)
      · exact h6.cons r
    | rateLimit m =>
      rw [submitLoop, hcall] at h
      simp at h

/-- C2: for every submitter call with non-empty recipient list
R = to ++ cc ++ bcc that returns an outcome, every recipient of R is placed
in exactly one of `succeeded` / `failed` (their multiset union is R and
lengths add up to |R|), `message_ids` pairs up with `succeeded` one-to-one in
order, and an empty R fails immediately as a validation error. -/
theorem C2_submitter_accounting
    (upstream : Nat → SubmitAttemptResult) (email : EmailData) :
    (email.to_recipients ++ email.cc_recipients ++ email.bcc_recipients = [] →
      (submit_email upstream email).result =
        .error (.validation "No recipients specified")) ∧
    (∀ o, (submit_email upstream email).result = .ok o →
      o.succeeded.length + o.failed.length =
        (email.to_recipients ++ email.cc_recipients ++ email.bcc_recipients).length ∧
      o.message_ids.length = o.succeeded.length ∧
      (o.succeeded ++ o.failed.map (fun q => q.1)).Perm
        (email.to_recipients ++ email.cc_recipients ++ email.bcc_recipients) ∧
      List.Sublist o.succeeded
        (email.to_recipients ++ email.cc_recipients ++ email.bcc_recipients) ∧
      ∃ (pairs : List (String × String)), o.succeeded = pairs.map Prod.fst ∧
        o.message_ids = pairs.map Prod.snd) := by
  constructor
  · intro hR
    simp [submit_email, hR]
  · intro o h
    by_cases hR :
        email.to_recipients ++ email.cc_recipients ++ email.bcc_recipients = []
    · simp [submit_email, hR] at h
    · rw [submit_email] at h
      simp only [if_neg hR] at h
      obtain ⟨pairs, newFails, h1, h2, h3, h4, h5, h6⟩ :=
        submitLoop_ok_shape upstream _ 0 [] [] [] o h
      simp only [List.nil_append] at h1 h2 h3
      refine ⟨?_, ?_, ?_, ?_, pairs, h1, h2⟩
      · simp only [h1, h3, List.length_map]
        simpa using h4
      · simp [h1, h2]
      · rw [h1, h3]
        simpa using h5
      · rw [h1]; exact h6

/-- Witness for C2 at concrete inputs: an empty recipient list fails as a
validation error, and a three-recipient all-success run satisfies the
accounting. -/
theorem C2_submitter_accounting_witness :
    (submit_email uOkW emailNoneW).result =
      .error (.validation "No recipients specified") ∧
    ((3 : Nat) + 0 =
        (email3W.to_recipients ++ email3W.cc_recipients ++ email3W.bcc_recipients).length ∧
      (3 : Nat) = 3 ∧
      ((["a", "b", "c"] : List String) ++
          ([] : List (String × String)).map (fun q => q.1)).Perm
        (email3W.to_recipients ++ email3W.cc_recipients ++ email3W.bcc_recipients) ∧
      List.Sublist (["a", "b", "c"] : List String)
        (email3W.to_recipients ++ email3W.cc_recipients ++ email3W.bcc_recipients) ∧
      ∃ (pairs : List (String × String)),
        (["a", "b", "c"] : List String) = pairs.map Prod.fst ∧
        (["m0", "m1", "m2"] : List String) = pairs.map Prod.snd) := by
  refine ⟨(C2_submitter_accounting uOkW emailNoneW).1 rfl, ?_⟩
  exact (C2_submitter_accounting uOkW email3W).2
    { succeeded := ["a", "b", "c"], failed := [], message_ids := ["m0", "m1", "m2"] }
    rfl

/-- C1: in an authenticated session with a sender and at least one recipient,
the DATA reply is determined by the outcome: a parser format error yields
`550 5.6.0 Message rejected`; a missing API key yields
`451 4.3.0 Internal error: missing API key`; otherwise the reply is the
except-chain mapping of the submit outcome — accepted → 250 2.0.0,
validation error → 550 5.6.0, rate limit → 451 4.7.1, server error →
451 4.3.0, network error → 451 4.4.0. -/
theorem C1_data_reply_mapping (sd : SessionData) (envelope : Envelope)
    (upstream : Nat → SubmitAttemptResult)
    (hauth : sd.authenticated = true) (hfrom : envelope.mail_from ≠ "")
    (hrcpt : envelope.rcpt_tos ≠ []) :
    (∀ e, handle_DATA (some sd) envelope (.error e) upstream =
      "550 5.6.0 Message rejected: " ++ e) ∧
    (∀ email, sd.api_key.getD "" = "" →
      handle_DATA (some sd) envelope (.ok email) upstream =
        "451 4.3.0 Internal error: missing API key") ∧
    (∀ email, sd.api_key.getD "" ≠ "" →
      handle_DATA (some sd) envelope (.ok email) upstream =
        data_reply_of_submit (submit_email upstream email).result) ∧
    (∀ o, data_reply_of_submit (.ok o) =
      "250 2.0.0 Message accepted for delivery: "
        ++ renderMessageIdField o.message_ids) ∧
    (∀ m, data_reply_of_submit (.error (.validation m)) =
      "550 5.6.0 Message rejected: " ++ m) ∧
    (∀ m, data_reply_of_submit (.error (.rateLimit m)) =
      "451 4.7.1 Rate limit exceeded, try again later") ∧
    (∀ m, data_reply_of_submit (.error (.server m)) =
      "451 4.3.0 Temporary failure, try again later") ∧
    (∀ m, data_reply_of_submit (.error (.network m)) =
      "451 4.4.0 Service temporarily unavailable") := by
  refine ⟨?_, ?_, ?_, ?_, ?_, ?_, ?_, ?_⟩
  · intro e
    simp [handle_DATA, hauth, hfrom, hrcpt]
  · intro email hk
    simp [handle_DATA, hauth, hfrom, hrcpt, hk]
  · intro email hk
    simp [handle_DATA, hauth, hfrom, hrcpt, hk]
  · intro o; rfl
  · intro m; rfl
  · intro m; rfl
  · intro m; rfl
  · intro m; rfl

/-- Witness for C1 at concrete inputs, covering all seven reply shapes. -/
theorem C1_data_reply_mapping_witness :
    handle_DATA (some sdW) envW (.error "bad") uOkW =
      "550 5.6.0 Message rejected: " ++ "bad" ∧
    handle_DATA (some { sdW with api_key := none }) envW (.ok email3W) uOkW =
      "451 4.3.0 Internal error: missing API key" ∧
    handle_DATA (some sdW) envW (.ok email3W) uOkW =
      data_reply_of_submit (submit_email uOkW email3W).result ∧
    data_reply_of_submit
        (.ok { succeeded := ["a"], failed := [], message_ids := ["m0"] }) =
      "250 2.0.0 Message accepted for delivery: "
        ++ renderMessageIdField ["m0"] ∧
    data_reply_of_submit (.error (.validation "v")) =
      "550 5.6.0 Message rejected: " ++ "v" ∧
    data_reply_of_submit (.error (.rateLimit "r")) =
      "451 4.7.1 Rate limit exceeded, try again later" ∧
    data_reply_of_submit (.error (.server "s")) =
      "451 4.3.0 Temporary failure, try again later" ∧
    data_reply_of_submit (.error (.network "n")) =
      "451 4.4.0 Service temporarily unavailable" := by
  have h := C1_data_reply_mapping sdW envW uOkW rfl (by decide) (by decide)
  have h2 := C1_data_reply_mapping { sdW with api_key := none } envW uOkW rfl
    (by decide) (by decide)
  exact ⟨h.1 "bad", h2.2.1 email3W rfl, h.2.2.1 email3W (by decide),
    h.2.2.2.1 _, h.2.2.2.2.1 "v", h.2.2.2.2.2.1 "r", h.2.2.2.2.2.2.1 "s",
    h.2.2.2.2.2.2.2 "n"⟩

/-- C4: a 429 on the attempt of any recipient mid fan-out makes the submitter
raise RateLimitError at once — the loop result is independent of the
remaining recipients and consumes exactly the one HTTP call that saw the
429 — and the DATA reply for a rate-limited submission is 451 4.7.1. -/
theorem C4_rate_limit_short_circuits :
    (∀ (upstream : Nat → SubmitAttemptResult) (callIdx : Nat)
       (succAcc : List String) (failAcc : List (String × String))
       (idsAcc : List String) (r : String) (rest : List String) (body : RespBody),
       upstream callIdx = .http 429 body →
       submitLoop upstream (r :: rest) callIdx succAcc failAcc idsAcc =
         { result := .error (.rateLimit "Rate limit exceeded, try again later")
           calls := 1 }) ∧
    (∀ (sd : SessionData) (envelope : Envelope)
       (upstream : Nat → SubmitAttemptResult) (email : EmailData) (m : String),
       sd.authenticated = true → envelope.mail_from ≠ "" →
       envelope.rcpt_tos ≠ [] → sd.api_key.getD "" ≠ "" →
       (submit_email upstream email).result = .error (.rateLimit m) →
       handle_DATA (some sd) envelope (.ok email) upstream =
         "451 4.7.1 Rate limit exceeded, try again later") := by
  constructor
  · intro upstream callIdx succAcc failAcc idsAcc r rest body h
    have hs : submitSingle upstream callIdx =
        (.rateLimit "Rate limit exceeded, try again later", 1) := by
      simp [submitSingle, submitSingleGo, max_attempts, h]
    rw [submitLoop, hs]
  · intro sd envelope upstream email m hauth hfrom hrcpt hkey hres
    simp [handle_DATA, hauth, hfrom, hrcpt, hkey, hres, data_reply_of_submit]

/-- Witness for C4: three recipients, 429 on the first call — one HTTP call
total and a 451 4.7.1 DATA reply. -/
theorem C4_rate_limit_short_circuits_witness :
    submitLoop u429W ["a", "b", "c"] 0 [] [] [] =
      { result := .error (.rateLimit "Rate limit exceeded, try again later")
        calls := 1 } ∧
    handle_DATA (some sdW) envW (.ok email3W) u429W =
      "451 4.7.1 Rate limit exceeded, try again later" := by
  constructor
  · exact C4_rate_limit_short_circuits.1 u429W 0 [] [] [] "a" ["b", "c"]
      { message_id := none, id := none, error := none, message := none } rfl
  · exact C4_rate_limit_short_circuits.2 sdW envW u429W email3W
      "Rate limit exceeded, try again later" rfl (by decide) (by decide)
      (by decide) rfl

/-! ## Lemmas on the credential validator loop -/

/-- Each loop iteration makes at most one HTTP attempt. -/
theorem validateGo_attempts_le (upstream : Nat → AuthAttemptResult) (m : Nat) :
    ∀ (fuel attempt : Nat) (lastError : Option AuthError),
      (validateGo upstream m attempt fuel lastError).attempts ≤ fuel := by
  intro fuel
  induction fuel with
  | zero => intro attempt lastError; simp [validateGo]
  | succ fuel ih =>
    intro attempt lastError
    rw [validateGo]
    cases h : upstream attempt <;> dsimp only <;> repeat' split
    all_goals simp_all

/-- A 5xx with a retry left: one attempt, one backoff sleep, then the loop
continues at the next attempt. -/
theorem validateGo_step_5xx (u : Nat → AuthAttemptResult) (attempt fuel : Nat)
    (lastError : Option AuthError) (c : Nat) (body : AuthRespBody)
    (hu : u attempt = .http c body) (hc : 500 ≤ c) (hlt : attempt < 2) (d : Nat)
    (hd : retry_delays.get? attempt = some d) :
    validateGo u 2 attempt (fuel + 1) lastError =
      { outcome := (validateGo u 2 (attempt + 1) fuel
          (some (.server ("API server error: " ++ toString c)))).outcome
        attempts := (validateGo u 2 (attempt + 1) fuel
          (some (.server ("API server error: " ++ toString c)))).attempts + 1
        sleeps := d :: (validateGo u 2 (attempt + 1) fuel
          (some (.server ("API server error: " ++ toString c)))).sleeps } := by
  rw [validateGo, hu]
  dsimp only
  rw [if_neg (by omega : ¬c = 200), if_neg (by omega : ¬(c = 401 ∨ c = 403)),
    if_pos hc, if_pos hlt, hd]

/-- A 5xx on the last allowed attempt: the loop raises ServerError. -/
theorem validateGo_term_5xx (u : Nat → AuthAttemptResult) (attempt fuel : Nat)
    (lastError : Option AuthError) (c : Nat) (body : AuthRespBody)
    (hu : u attempt = .http c body) (hc : 500 ≤ c) (hge : ¬attempt < 2) :
    validateGo u 2 attempt (fuel + 1) lastError =
      { outcome := .err (.server ("API server error: " ++ toString c))
        attempts := 1, sleeps := [] } := by
  rw [validateGo, hu]
  dsimp only
  rw [if_neg (by omega : ¬c = 200), if_neg (by omega : ¬(c = 401 ∨ c = 403)),
    if_pos hc, if_neg hge]

/-- A timeout with a retry left: one attempt, one backoff sleep, then the
loop continues. -/
theorem validateGo_step_timeout (u : Nat → AuthAttemptResult)
    (attempt fuel : Nat) (lastError : Option AuthError)
    (hu : u attempt = .timeout) (hlt : attempt < 2) (d : Nat)
    (hd : retry_delays.get? attempt = some d) :
    validateGo u 2 attempt (fuel + 1) lastError =
      { outcome := (validateGo u 2 (attempt + 1) fuel
          (some (.network "API request timeout"))).outcome
        attempts := (validateGo u 2 (attempt + 1) fuel
          (some (.network "API request timeout"))).attempts + 1
        sleeps := d :: (validateGo u 2 (attempt + 1) fuel
          (some (.network "API request timeout"))).sleeps } := by
  rw [validateGo, hu]
  dsimp only
  rw [if_pos hlt, hd]

/-- A timeout on the last allowed attempt: the loop raises NetworkError. -/
theorem validateGo_term_timeout (u : Nat → AuthAttemptResult)
    (attempt fuel : Nat) (lastError : Option AuthError)
    (hu : u attempt = .timeout) (hge : ¬attempt < 2) :
    validateGo u 2 attempt (fuel + 1) lastError =
      { outcome := .err (.network "API request timeout"), attempts := 1, sleeps := [] } := by
  rw [validateGo, hu]
  dsimp only
  rw [if_neg hge]

/-- A transport error with a retry left. -/
theorem validateGo_step_transport (u : Nat → AuthAttemptResult)
    (attempt fuel : Nat) (lastError : Option AuthError)
    (hu : u attempt = .transportError) (hlt : attempt < 2) (d : Nat)
    (hd : retry_delays.get? attempt = some d) :
    validateGo u 2 attempt (fuel + 1) lastError =
      { outcome := (validateGo u 2 (attempt + 1) fuel
          (some (.network "Network error"))).outcome
        attempts := (validateGo u 2 (attempt + 1) fuel
          (some (.network "Network error"))).attempts + 1
        sleeps := d :: (validateGo u 2 (attempt + 1) fuel
          (some (.network "Network error"))).sleeps } := by
  rw [validateGo, hu]
  dsimp only
  rw [if_pos hlt, hd]

/-- A transport error on the last allowed attempt. -/
theorem validateGo_term_transport (u : Nat → AuthAttemptResult)
    (attempt fuel : Nat) (lastError : Option AuthError)
    (hu : u attempt = .transportError) (hge : ¬attempt < 2) :
    validateGo u 2 attempt (fuel + 1) lastError =
      { outcome := .err (.network "Network error"), attempts := 1, sleeps := [] } := by
  rw [validateGo, hu]
  dsimp only
  rw [if_neg hge]

/-- C3: under the default configuration (`api_max_retries = 2`),
`validate_credentials` maps each upstream behaviour as specified: 200 with a
non-empty `api_key` returns the key in one attempt; 200 without one fails as
a server error without retry; 401/403 fail as an authentication error without
retry; all-5xx makes exactly 3 attempts with sleeps 500 ms and 1000 ms and
fails as a server error; any other status fails as a server error without
retry; all-timeout/transport makes 3 attempts on the same schedule and fails
as a network error; and no run makes more than 3 HTTP attempts. -/
theorem C3_validator_outcomes :
    (∀ (u : Nat → AuthAttemptResult) (body : AuthRespBody) (k : String),
       u 0 = .http 200 body → body.api_key = some k → k ≠ "" →
       validate_credentials u 2 = { outcome := .key k, attempts := 1, sleeps := [] }) ∧
    (∀ (u : Nat → AuthAttemptResult) (body : AuthRespBody),
       u 0 = .http 200 body → truthyS body.api_key = false →
       validate_credentials u 2 =
         { outcome := .err (.server "Invalid API response: missing api_key")
           attempts := 1, sleeps := [] }) ∧
    (∀ (u : Nat → AuthAttemptResult) (body : AuthRespBody) (c : Nat),
       u 0 = .http c body → (c = 401 ∨ c = 403) →
       validate_credentials u 2 =
         { outcome := .err (.authentication "Invalid credentials")
           attempts := 1, sleeps := [] }) ∧
    (∀ u : Nat → AuthAttemptResult,
       (∀ n, n < 3 → ∃ c body, u n = .http c body ∧ 500 ≤ c) →
       (∃ msg, (validate_credentials u 2).outcome = .err (.server msg)) ∧
       (validate_credentials u 2).attempts = 3 ∧
       (validate_credentials u 2).sleeps = [500, 1000]) ∧
    (∀ (u : Nat → AuthAttemptResult) (body : AuthRespBody) (c : Nat),
       u 0 = .http c body → ¬c = 200 → ¬(c = 401 ∨ c = 403) → c < 500 →
       validate_credentials u 2 =
         { outcome := .err (.server ("Unexpected API response: " ++ toString c))
           attempts := 1, sleeps := [] }) ∧
    (∀ u : Nat → AuthAttemptResult,
       (∀ n, n < 3 → u n = .timeout ∨ u n = .transportError) →
       (∃ msg, (validate_credentials u 2).outcome = .err (.network msg)) ∧
       (validate_credentials u 2).attempts = 3 ∧
       (validate_credentials u 2).sleeps = [500, 1000]) ∧
    (∀ u : Nat → AuthAttemptResult, (validate_credentials u 2).attempts ≤ 3) := by
  refine ⟨?_, ?_, ?_, ?_, ?_, ?_, ?_⟩
  · intro u body k hu hb hk
    rw [validate_credentials, validateGo, hu]
    dsimp only
    rw [if_pos rfl]
    simp [truthyS, hb, hk]
  · intro u body hu hb
    rw [validate_credentials, validateGo, hu]
    dsimp only
    rw [if_pos rfl, if_neg (by simp [hb])]
  · intro u body c hu hc
    rw [validate_credentials, validateGo, hu]
    dsimp only
    rw [if_neg (by omega : ¬c = 200), if_pos hc]
  · intro u hall
    obtain ⟨c0, b0, h0, hc0⟩ := hall 0 (by omega)
    obtain ⟨c1, b1, h1, hc1⟩ := hall 1 (by omega)
    obtain ⟨c2, b2, h2, hc2⟩ := hall 2 (by omega)
    rw [validate_credentials,
      validateGo_step_5xx u 0 2 none c0 b0 h0 hc0 (by omega) 500 rfl,
      validateGo_step_5xx u 1 1 _ c1 b1 h1 hc1 (by omega) 1000 rfl,
      validateGo_term_5xx u 2 0 _ c2 b2 h2 hc2 (by omega)]
    exact ⟨⟨_, rfl⟩, rfl, rfl⟩
  · intro u body c hu h200 h4x h500
    rw [validate_credentials, validateGo, hu]
    dsimp only
    rw [if_neg h200, if_neg h4x, if_neg (by omega : ¬500 ≤ c)]
  · intro u hall
    rw [validate_credentials]
    rcases hall 0 (by omega) with h0 | h0 <;>
      [rw [validateGo_step_timeout u 0 2 none h0 (by omega) 500 rfl];
       rw [validateGo_step_transport u 0 2 none h0 (by omega) 500 rfl]] <;>
    (rcases hall 1 (by omega) with h1 | h1 <;>
      [rw [validateGo_step_timeout u 1 1 _ h1 (by omega) 1000 rfl];
       rw [validateGo_step_transport u 1 1 _ h1 (by omega) 1000 rfl]]) <;>
    (rcases hall 2 (by omega) with h2 | h2 <;>
      [rw [validateGo_term_timeout u 2 0 _ h2 (by omega)];
       rw [validateGo_term_transport u 2 0 _ h2 (by omega)]]) <;>
    exact ⟨⟨_, rfl⟩, rfl, rfl⟩
  · intro u
    exact validateGo_attempts_le u 2 3 0 none

/-- Witness for C3 at concrete oracles: immediate success, all-503, and
all-timeout runs. -/
theorem C3_validator_outcomes_witness :
    validate_credentials aOkW 2 = { outcome := .key "K", attempts := 1, sleeps := [] } ∧
    ((∃ msg, (validate_credentials a503W 2).outcome = .err (.server msg)) ∧
      (validate_credentials a503W 2).attempts = 3 ∧
      (validate_credentials a503W 2).sleeps = [500, 1000]) ∧
    ((∃ msg, (validate_credentials aTimeoutW 2).outcome = .err (.network msg)) ∧
      (validate_credentials aTimeoutW 2).attempts = 3 ∧
      (validate_credentials aTimeoutW 2).sleeps = [500, 1000]) ∧
    (validate_credentials aOkW 2).attempts ≤ 3 := by
  refine ⟨?_, ?_, ?_, ?_⟩
  · exact C3_validator_outcomes.1 aOkW { api_key := some "K" } "K" rfl rfl
      (by decide)
  · exact C3_validator_outcomes.2.2.2.1 a503W
      (fun n _ => ⟨503, { api_key := none }, rfl, by omega⟩)
  · exact C3_validator_outcomes.2.2.2.2.2.1 aTimeoutW (fun n _ => Or.inl rfl)
  · exact C3_validator_outcomes.2.2.2.2.2.2 aOkW

/-- Fuel, attempt index and the schedule stay in step: with
`max_retries ≤ 2`, the loop never reads `retry_delays` out of bounds and its
sleeps are the schedule entries from the current attempt on. -/
theorem validateGo_schedule_inv (upstream : Nat → AuthAttemptResult) (m : Nat)
    (hm : m ≤ 2) :
    ∀ (fuel attempt : Nat) (lastError : Option AuthError),
      attempt + fuel = m + 1 →
      (validateGo upstream m attempt fuel lastError).outcome ≠ .crash ∧
      (fuel ≠ 0 → 1 ≤ (validateGo upstream m attempt fuel lastError).attempts) ∧
      (validateGo upstream m attempt fuel lastError).sleeps =
        (retry_delays.drop attempt).take
          ((validateGo upstream m attempt fuel lastError).attempts - 1) := by
  intro fuel
  induction fuel with
  | zero =>
    intro attempt lastError _
    refine ⟨by simp [validateGo], by simp, by simp [validateGo]⟩
  | succ fuel ih =>
    intro attempt lastError hsum
    have hfuel : fuel = m - attempt := by omega
    have hlen : retry_delays.length = 2 := by simp [retry_delays]
    rw [validateGo]
    cases hup : upstream attempt <;> dsimp only
    case http code body =>
      by_cases h200 : code = 200
      · rw [if_pos h200]
        by_cases hk : truthyS body.api_key = true
        · rw [if_pos hk]; exact ⟨by simp, by simp, by simp⟩
        · rw [if_neg hk]; exact ⟨by simp, by simp, by simp⟩
      · rw [if_neg h200]
        by_cases h4x : code = 401 ∨ code = 403
        · rw [if_pos h4x]; exact ⟨by simp, by simp, by simp⟩
        · rw [if_neg h4x]
          by_cases h5x : 500 ≤ code
          · rw [if_pos h5x]
            by_cases hlt : attempt < m
            · rw [if_pos hlt]
              have hbound : attempt < retry_delays.length := by omega
              rw [List.get?_eq_get hbound]
              dsimp only
              have hsub := ih (attempt + 1)
                (some (.server ("API server error: " ++ toString code)))
                (by omega)
              have hfne : fuel ≠ 0 := by omega
              obtain ⟨k, hk⟩ := Nat.exists_eq_add_of_le (hsub.2.1 hfne)
              refine ⟨hsub.1, by simp, ?_⟩
              have hdrop : retry_delays.drop attempt =
                  retry_delays.get ⟨attempt, hbound⟩ :: retry_delays.drop (attempt + 1) :=
                List.drop_eq_get_cons hbound
              simp only [hdrop]
              rw [hsub.2.2]
              have : (validateGo upstream m (attempt + 1) fuel
                  (some (.server ("API server error: " ++ toString code)))).attempts
                  + 1 - 1 = k + 1 := by omega
              rw [this, List.take_succ_cons]
              congr 1
              congr 1
              omega
            · rw [if_neg hlt]; exact ⟨by simp, by simp, by simp⟩
          · rw [if_neg h5x]; exact ⟨by simp, by simp, by simp⟩
    case timeout =>
      by_cases hlt : attempt < m
      · rw [if_pos hlt]
        have hbound : attempt < retry_delays.length := by omega
        rw [List.get?_eq_get hbound]
        dsimp only
        have hsub := ih (attempt + 1) (some (.network "API request timeout")) (by omega)
        have hfne : fuel ≠ 0 := by omega
        obtain ⟨k, hk⟩ := Nat.exists_eq_add_of_le (hsub.2.1 hfne)
        refine ⟨hsub.1, by simp, ?_⟩
        have hdrop : retry_delays.drop attempt =
            retry_delays.get ⟨attempt, hbound⟩ :: retry_delays.drop (attempt + 1) :=
          List.drop_eq_get_cons hbound
        simp only [hdrop]
        rw [hsub.2.2]
        have : (validateGo upstream m (attempt + 1) fuel
            (some (.network "API request timeout"))).attempts + 1 - 1 = k + 1 := by
          omega
        rw [this, List.take_succ_cons]
        congr 1
        congr 1
        omega
      · rw [if_neg hlt]; exact ⟨by simp, by simp, by simp⟩
    case transportError =>
      by_cases hlt : attempt < m
      · rw [if_pos hlt]
        have hbound : attempt < retry_delays.length := by omega
        rw [List.get?_eq_get hbound]
        dsimp only
        have hsub := ih (attempt + 1) (some (.network "Network error")) (by omega)
        have hfne : fuel ≠ 0 := by omega
        obtain ⟨k, hk⟩ := Nat.exists_eq_add_of_le (hsub.2.1 hfne)
        refine ⟨hsub.1, by simp, ?_⟩
        have hdrop : retry_delays.drop attempt =
            retry_delays.get ⟨attempt, hbound⟩ :: retry_delays.drop (attempt + 1) :=
          List.drop_eq_get_cons hbound
        simp only [hdrop]
        rw [hsub.2.2]
        have : (validateGo upstream m (attempt + 1) fuel
            (some (.network "Network error"))).attempts + 1 - 1 = k + 1 := by
          omega
        rw [this, List.take_succ_cons]
        congr 1
        congr 1
        omega
      · rw [if_neg hlt]; exact ⟨by simp, by simp, by simp⟩

/-- C10: with `api_max_retries ≤ 2` the validator is total over its two-entry
backoff schedule: no out-of-bounds schedule read (no crash), at most
`api_max_retries + 1` HTTP attempts, and the sleeps performed are exactly the
leading schedule entries (0.5 s before the second attempt, 1.0 s before the
third). -/
theorem C10_backoff_schedule_total (upstream : Nat → AuthAttemptResult)
    (m : Nat) (hm : m ≤ 2) :
    (validate_credentials upstream m).outcome ≠ .crash ∧
    (validate_credentials upstream m).attempts ≤ m + 1 ∧
    (validate_credentials upstream m).sleeps =
      retry_delays.take ((validate_credentials upstream m).attempts - 1) := by
  have h1 := validateGo_schedule_inv upstream m hm (m + 1) 0 none (by omega)
  have h2 := validateGo_attempts_le upstream m (m + 1) 0 none
  exact ⟨h1.1, h2, by simpa using h1.2.2⟩

/-- Witness for C10: an all-timeout run with the default retry count. -/
theorem C10_backoff_schedule_total_witness :
    (validate_credentials aTimeoutW 2).outcome ≠ .crash ∧
    (validate_credentials aTimeoutW 2).attempts ≤ 3 ∧
    (validate_credentials aTimeoutW 2).sleeps =
      retry_delays.take ((validate_credentials aTimeoutW 2).attempts - 1) :=
  C10_backoff_schedule_total aTimeoutW 2 (by decide)

/-! ## Parser claims -/

/-- C5: parsing fails (with its single format error) iff byte-level decoding
raised, or the decoded From is empty, or all three recipient lists are empty;
on success the sender is non-empty and there is at least one recipient. -/
theorem C5_parse_failure_iff (raw : Option MimeMessage) :
    ((∃ e, parse_email_message raw = .error e) ↔
      (raw = none ∨ ∃ msg, raw = some msg ∧
        (decode_header msg.from_h = "" ∨
          (extract_recipients msg.to_h = [] ∧ extract_recipients msg.cc_h = [] ∧
            extract_recipients msg.bcc_h = [])))) ∧
    (∀ P, parse_email_message raw = .ok P →
      P.from_addr ≠ "" ∧
      1 ≤ P.to_recipients.length + P.cc_recipients.length +
        P.bcc_recipients.length) := by
  constructor
  · cases raw with
    | none => simp [parse_email_message]
    | some msg =>
      by_cases hf : decode_header msg.from_h = ""
      · simp [parse_email_message, hf]
      · by_cases hr : extract_recipients msg.to_h = [] ∧
            extract_recipients msg.cc_h = [] ∧ extract_recipients msg.bcc_h = []
        · simp [parse_email_message, hf, hr]
        · simp [parse_email_message, hf, hr]
  · intro P h
    cases raw with
    | none => simp [parse_email_message] at h
    | some msg =>
      by_cases hf : decode_header msg.from_h = ""
      · simp [parse_email_message, hf] at h
      · by_cases hr : extract_recipients msg.to_h = [] ∧
            extract_recipients msg.cc_h = [] ∧ extract_recipients msg.bcc_h = []
        · simp [parse_email_message, hf, hr] at h
        · simp only [parse_email_message, if_neg hf, if_neg hr] at h
          injection h with h
          subst h
          refine ⟨hf, ?_⟩
          have hlist : extract_recipients msg.to_h ≠ [] ∨
              extract_recipients msg.cc_h ≠ [] ∨
              extract_recipients msg.bcc_h ≠ [] := by tauto
          dsimp only
          rcases hlist with h1 | h1 | h1 <;>
            have hp := List.length_pos.mpr h1 <;> omega

/-- Witness for C5 on a concrete well-formed message. -/
theorem C5_parse_failure_iff_witness :
    parsedW.from_addr ≠ "" ∧
    1 ≤ parsedW.to_recipients.length + parsedW.cc_recipients.length +
      parsedW.bcc_recipients.length :=
  (C5_parse_failure_iff (some msgW)).2 parsedW rfl

/-! ## Server size-limit claim -/

/-- C6 (failing input evaluated): the engine's DATA size limit is aiosmtpd's
default for every configuration — `create_smtp_server` never wires
`settings.message_size_limit` — so under default settings a message of
`message_size_limit + 1` bytes is accepted instead of drawing 552. A message
of exactly `message_size_limit` bytes is accepted, as the claim says. -/
theorem C6_size_limit_not_enforced :
    defaultSettings.message_size_limit = 26214400 ∧
    (∀ s : Settings, create_smtp_server_data_size_limit s = AIOSMTPD_DATA_SIZE_DEFAULT) ∧
    smtp_data_accepts defaultSettings defaultSettings.message_size_limit = true ∧
    smtp_data_accepts defaultSettings (defaultSettings.message_size_limit + 1) = true :=
  ⟨rfl, fun _ => rfl, by decide, by decide⟩

/-! ## Attachment claims -/

/-- C9 counterexample: a part classified as an attachment, with a filename
and decoded payload `b""`, produces no attachment record at all — in
particular no record with `content = base64(b"") = ""` and `size = 0`. -/
theorem C9_counterexample :
    is_attachment emptyPayloadPartW = true ∧
    emptyPayloadPartW.filename.isSome = true ∧
    emptyPayloadPartW.payload = some [] ∧
    extract_attachments [emptyPayloadPartW] = [] := by
  refine ⟨by decide, rfl, rfl, rfl⟩

/-- C9 amended: an attachment part with a truthy filename and a non-empty
decoded payload `B` yields exactly one record — RFC 2047-decoded filename,
the part's content type, `base64(B)` and `size = |B|`; the submit request
body carries the attachment list whenever it is non-empty; and a
non-multipart part with no filename yields no record. Parts with an empty
payload (see the counterexample) likewise yield no record. -/
theorem C9_attachment_record (p : MimePart) (rest : List MimePart)
    (fn : HeaderText) (bytes : List Nat)
    (hmp : p.is_multipart = false) (hatt : is_attachment p = true)
    (hfn : p.filename = some fn) (hraw : fn.raw ≠ "")
    (hpl : p.payload = some bytes) (hne : bytes ≠ []) :
    (extract_attachments (p :: rest) =
      { filename := decode_header (some fn), content_type := p.content_type
        content := b64encode bytes, size := bytes.length }
        :: extract_attachments rest) ∧
    (∀ (email : EmailData) (r : String), email.attachments ≠ [] →
      (build_api_payload email r).attachments = some email.attachments) ∧
    (∀ (q : MimePart) (rest2 : List MimePart), q.is_multipart = false →
      q.filename = none →
      extract_attachments (q :: rest2) = extract_attachments rest2) := by
  refine ⟨?_, ?_, ?_⟩
  · rw [extract_attachments, hmp]
    simp only [Bool.false_eq_true, if_false, hatt, if_true, hfn]
    rw [if_pos hraw, hpl]
    simp only [if_pos hne]
  · intro email r hne2
    simp [build_api_payload, hne2]
  · intro q rest2 hq hfnq
    rw [extract_attachments, hq]
    simp only [Bool.false_eq_true, if_false]
    by_cases ha : is_attachment q = true
    · simp [ha, hfnq]
    · simp [ha]

/-- Witness for C9 amended on a three-byte PDF attachment. -/
theorem C9_attachment_record_witness :
    (extract_attachments (pdfPartW :: []) =
      { filename := decode_header (some { raw := "a.pdf", decoded := some "a.pdf" })
        content_type := pdfPartW.content_type
        content := b64encode [1, 2, 3], size := ([1, 2, 3] : List Nat).length }
        :: extract_attachments []) ∧
    (build_api_payload emailAttW "r").attachments = some emailAttW.attachments ∧
    extract_attachments (noFnPartW :: []) = extract_attachments [] := by
  have h := C9_attachment_record pdfPartW [] { raw := "a.pdf", decoded := some "a.pdf" }
    [1, 2, 3] rfl (by decide) rfl (by decide) rfl (by decide)
  exact ⟨h.1, h.2.1 emailAttW "r" (by decide), h.2.2 noFnPartW [] rfl rfl⟩

/-! ## Lemmas on the session dictionary -/

/-- Looking up a key just stored finds the stored value. -/
theorem lookupA_storeA_self :
    ∀ (st : List (String × SessionData)) (k : String) (v : SessionData),
      lookupA (storeA st k v) k = some v := by
  intro st k v
  induction st with
  | nil => simp [storeA, lookupA]
  | cons kv rest ih =>
    rcases kv with ⟨k0, v0⟩
    by_cases h : k0 = k
    · simp [storeA, lookupA, h]
    · simp [storeA, lookupA, h, ih]

/-- Storing under one key does not change the binding of another. -/
theorem lookupA_storeA_ne :
    ∀ (st : List (String × SessionData)) (k : String) (v : SessionData)
      (k2 : String), k ≠ k2 → lookupA (storeA st k v) k2 = lookupA st k2 := by
  intro st k v k2 hne
  induction st with
  | nil => simp [storeA, lookupA, fun h => hne h]
  | cons kv rest ih =>
    rcases kv with ⟨k0, v0⟩
    by_cases h : k0 = k
    · subst h
      simp [storeA, lookupA, fun h => hne h]
    · simp [storeA, lookupA, h, ih]

/-- Popping one key does not change the binding of another. -/
theorem lookupA_popA_ne :
    ∀ (st : List (String × SessionData)) (k k2 : String), k ≠ k2 →
      lookupA (popA st k) k2 = lookupA st k2 := by
  intro st k k2 hne
  induction st with
  | nil => simp [popA, lookupA]
  | cons kv rest ih =>
    rcases kv with ⟨k0, v0⟩
    by_cases h : k0 = k
    · subst h
      simp [popA, lookupA, fun h => hne h]
    · simp [popA, lookupA, h, ih]

/-- A key bound nowhere in the list looks up to `none`. -/
theorem lookupA_eq_none :
    ∀ (st : List (String × SessionData)) (k : String),
      k ∉ st.map Prod.fst → lookupA st k = none := by
  intro st k h
  induction st with
  | nil => rfl
  | cons kv rest ih =>
    rcases kv with ⟨k0, v0⟩
    simp only [List.map_cons, List.mem_cons] at h
    push_neg at h
    have hne : ¬k0 = k := fun he => h.1 he.symm
    simp [lookupA, hne, ih h.2]

/-- With no duplicate keys, popping a key removes its binding entirely. -/
theorem lookupA_popA_self :
    ∀ (st : List (String × SessionData)) (k : String),
      (st.map Prod.fst).Nodup → lookupA (popA st k) k = none := by
  intro st k hnd
  induction st with
  | nil => rfl
  | cons kv rest ih =>
    rcases kv with ⟨k0, v0⟩
    simp only [List.map_cons, List.nodup_cons] at hnd
    by_cases h : k0 = k
    · subst h
      simp only [popA, if_pos rfl]
      exact lookupA_eq_none rest k0 hnd.1
    · simp [popA, lookupA, h, ih hnd.2]

/-! ## Session authentication claims -/

/-- C7 counterexample: a successful AUTH stores key `k`; a following AUTH
PLAIN whose payload fails to parse replies 535 (a failed AUTH) yet leaves the
stored entry untouched, so the session's api_key is still `k`, not empty. -/
theorem C7_counterexample :
    (handle_AUTH [] "1.2.3.4" true ["PLAIN", "x"] plainPayloadW vKeyW).reply =
      "235 2.7.0 Authentication successful" ∧
    (handle_AUTH (handle_AUTH [] "1.2.3.4" true ["PLAIN", "x"] plainPayloadW vKeyW).state
        "1.2.3.4" true ["PLAIN", "y"] none vKeyW).reply =
      "535 5.7.8 Authentication credentials invalid" ∧
    observed_api_key
      (handle_AUTH (handle_AUTH [] "1.2.3.4" true ["PLAIN", "x"] plainPayloadW vKeyW).state
        "1.2.3.4" true ["PLAIN", "y"] none vKeyW).state "1.2.3.4" = "k" :=
  ⟨rfl, rfl, rfl⟩

/-- C7 amended: a successful AUTH stores the validator's key for the peer; a
validator authentication failure pops the entry, leaving the observed key
empty; but an AUTH PLAIN parse failure (and a validator server/network error)
leaves the session dictionary unchanged, so a key from a prior success is
retained in those cases. -/
theorem C7_auth_key_state (st : List (String × SessionData))
    (peer arg1 : String) (rest : List String) (payload : Option String)
    (validator : String → String → ValidatorResult)
    (hnd : (st.map Prod.fst).Nodup) :
    (∀ u p k, parse_auth_plain payload = .ok (u, p) → validator u p = .key k →
      observed_api_key
        (handle_AUTH st peer true ("PLAIN" :: arg1 :: rest) payload validator).state
        peer = k) ∧
    (∀ u p, parse_auth_plain payload = .ok (u, p) →
      validator u p = .authenticationError →
      observed_api_key
        (handle_AUTH st peer true ("PLAIN" :: arg1 :: rest) payload validator).state
        peer = "") ∧
    (parse_auth_plain payload = .error () →
      (handle_AUTH st peer true ("PLAIN" :: arg1 :: rest) payload validator).state
        = st) := by
  have hPLAIN : strUpper "PLAIN" = "PLAIN" := rfl
  refine ⟨?_, ?_, ?_⟩
  · intro u p k hparse hval
    simp [handle_AUTH, hPLAIN, hparse, hval, observed_api_key, lookupA_storeA_self]
  · intro u p hparse hval
    simp [handle_AUTH, hPLAIN, hparse, hval, observed_api_key,
      lookupA_popA_self st peer hnd]
  · intro hparse
    simp [handle_AUTH, hPLAIN, hparse]

/-- Witness for C7 amended: success stores `k`; an authentication failure
clears a previously stored entry; a parse failure leaves it in place. -/
theorem C7_auth_key_state_witness :
    observed_api_key
      (handle_AUTH [] "1.2.3.4" true ("PLAIN" :: "x" :: []) plainPayloadW vKeyW).state
      "1.2.3.4" = "k" ∧
    observed_api_key
      (handle_AUTH [("1.2.3.4", sdW)] "1.2.3.4" true ("PLAIN" :: "x" :: [])
        plainPayloadW (fun _ _ => .authenticationError)).state "1.2.3.4" = "" ∧
    (handle_AUTH [("1.2.3.4", sdW)] "1.2.3.4" true ("PLAIN" :: "x" :: [])
      none vKeyW).state = [("1.2.3.4", sdW)] := by
  have h1 := C7_auth_key_state [] "1.2.3.4" "x" [] plainPayloadW vKeyW (by simp)
  have h2 := C7_auth_key_state [("1.2.3.4", sdW)] "1.2.3.4" "x" [] plainPayloadW
    (fun _ _ => .authenticationError) (by simp)
  have h3 := C7_auth_key_state [("1.2.3.4", sdW)] "1.2.3.4" "x" [] none vKeyW (by simp)
  exact ⟨h1.1 "u" "pw" "k" rfl rfl, h2.2.1 "u" "pw" rfl rfl, h3.2.2 rfl⟩

/-- Every `handle_AUTH` branch leaves the dictionary unchanged, stores under
the handling session's peer IP, or pops that peer IP. -/
theorem handle_AUTH_state_shape (st : List (String × SessionData)) (peer : String)
    (tls : Bool) (args : List String) (payload : Option String)
    (validator : String → String → ValidatorResult) :
    (handle_AUTH st peer tls args payload validator).state = st ∨
    (∃ v, (handle_AUTH st peer tls args payload validator).state = storeA st peer v) ∨
    (handle_AUTH st peer tls args payload validator).state = popA st peer := by
  unfold handle_AUTH
  by_cases htls : tls = false
  · rw [if_pos htls]; left; rfl
  · rw [if_neg htls]
    cases args with
    | nil => left; rfl
    | cons mech rest =>
      dsimp only
      by_cases hm : strUpper mech = "PLAIN"
      · rw [if_pos hm]
        cases rest with
        | nil => left; rfl
        | cons a rest2 =>
          dsimp only
          cases hp : parse_auth_plain payload with
          | error e => left; rfl
          | ok up =>
            rcases up with ⟨u, p⟩
            dsimp only
            cases hv : validator u p with
            | key k => right; left; exact ⟨_, rfl⟩
            | authenticationError => right; right; rfl
            | serverError => left; rfl
            | networkError => left; rfl
      · rw [if_neg hm]
        by_cases hm2 : strUpper mech = "LOGIN"
        · rw [if_pos hm2]; left; rfl
        · rw [if_neg hm2]; left; rfl

/-- C8 counterexample: two distinct concurrent sessions sharing one client IP
share the handler's `_authenticated_sessions` entry — an AUTH success in one
changes the API key and authenticated flag the other observes from empty /
false to `k` / true. -/
theorem C8_counterexample :
    ({ connId := 0, peerIp := "9.9.9.9" } : SmtpSessionRef) ≠
      { connId := 1, peerIp := "9.9.9.9" } ∧
    ({ connId := 0, peerIp := "9.9.9.9" } : SmtpSessionRef).peerIp =
      ({ connId := 1, peerIp := "9.9.9.9" } : SmtpSessionRef).peerIp ∧
    observed_api_key []
      ({ connId := 1, peerIp := "9.9.9.9" } : SmtpSessionRef).peerIp = "" ∧
    observed_authenticated [] "9.9.9.9" = false ∧
    observed_api_key
      (handle_AUTH [] "9.9.9.9" true ["PLAIN", "x"] plainPayloadW vKeyW).state
      ({ connId := 1, peerIp := "9.9.9.9" } : SmtpSessionRef).peerIp = "k" ∧
    observed_authenticated
      (handle_AUTH [] "9.9.9.9" true ["PLAIN", "x"] plainPayloadW vKeyW).state
      "9.9.9.9" = true :=
  ⟨by decide, rfl, rfl, rfl, rfl, rfl⟩

/-- C8 amended: isolation holds exactly up to the peer IP — an AUTH handled
for one peer IP never changes the API key or authenticated flag observed
under a different peer IP (and `handle_DATA` changes no session state at
all); sessions sharing a client IP share one entry, per the counterexample. -/
theorem C8_peer_isolation (st : List (String × SessionData))
    (peerA peerB : String) (tls : Bool) (args : List String)
    (payload : Option String) (validator : String → String → ValidatorResult)
    (h : peerA ≠ peerB) :
    observed_api_key (handle_AUTH st peerA tls args payload validator).state peerB =
      observed_api_key st peerB ∧
    observed_authenticated
        (handle_AUTH st peerA tls args payload validator).state peerB =
      observed_authenticated st peerB := by
  rcases handle_AUTH_state_shape st peerA tls args payload validator with
    hs | ⟨v, hs⟩ | hs <;> rw [hs]
  · exact ⟨rfl, rfl⟩
  · constructor <;>
      simp [observed_api_key, observed_authenticated, lookupA_storeA_ne st peerA v peerB h]
  · constructor <;>
      simp [observed_api_key, observed_authenticated, lookupA_popA_ne st peerA peerB h]

/-- Witness for C8 amended at two concrete distinct peer IPs. -/
theorem C8_peer_isolation_witness :
    observed_api_key
        (handle_AUTH [] "1.1.1.1" true ["PLAIN", "x"] plainPayloadW vKeyW).state
        "2.2.2.2" =
      observed_api_key [] "2.2.2.2" ∧
    observed_authenticated
        (handle_AUTH [] "1.1.1.1" true ["PLAIN", "x"] plainPayloadW vKeyW).state
        "2.2.2.2" =
      observed_authenticated [] "2.2.2.2" :=
  C8_peer_isolation [] "1.1.1.1" "2.2.2.2" true ["PLAIN", "x"] plainPayloadW vKeyW
    (by decide)

end SmtpGateway
